import Mathlib

/-!
Verification of the `mrtd` MRZ parser.

Shallow embedding of `src/parser.rs`, `src/document.rs` and `src/error.rs`.
MRZ input strings are modelled as `List Char` (the shape validator restricts
the alphabet to single-byte ASCII, so bytes and characters coincide).  The
ambient current UTC year (`Utc::now().year()` in the source) is passed as an
explicit `current_year : Nat` parameter.  The `unwrap()` on
`NaiveDate::with_year` in both parsers can panic; this is modelled by
wrapping the parser result in an outer `Option`, with `none` standing for
the panic.  Dates are modelled through the observable behaviour of chrono's
`NaiveDate::parse_from_str` with format `"%y%m%d"`: on a 6-character slice
it succeeds iff all six characters are ASCII digits and the decoded
`(year, month, day)` is a valid Gregorian date, where the two-digit year is
resolved to the range 1969–2068 (chrono documents `%y` as mapping to
1969–2068: `yy ≤ 68 ↦ 2000+yy`, `yy ≥ 69 ↦ 1900+yy`).
-/

/-- Parsing error, mirroring the `Error` enum of `src/error.rs`. -/
inductive Error where
  | InvalidDocumentType
  | InvalidFormat
  | InvalidBirthDate
  | InvalidExpiryDate
  | BadCheckDigit
  | ExpectedDigit
  | InvalidChar
deriving DecidableEq, Repr

/-- Gender, mirroring `src/document.rs`. -/
inductive Gender where
  | Male
  | Female
  | Other
deriving DecidableEq, Repr

/-- Calendar date: model of chrono `NaiveDate` restricted to the
year/month/day observations the parser uses. -/
structure MrzDate where
  year : Nat
  month : Nat
  day : Nat
deriving DecidableEq, Repr

/-- Passport record, mirroring `src/document.rs`. -/
structure Passport where
  country : List Char
  surnames : List (List Char)
  given_names : List (List Char)
  passport_number : List Char
  nationality : List Char
  birth_date : MrzDate
  gender : Gender
  expiry_date : MrzDate
deriving DecidableEq, Repr

/-- Identity-card record, mirroring `src/document.rs`. -/
structure IdentityCard where
  country : List Char
  surnames : List (List Char)
  given_names : List (List Char)
  document_number : List Char
  nationality : List Char
  birth_date : MrzDate
  gender : Gender
  expiry_date : MrzDate
deriving DecidableEq, Repr

/-- Travel document, mirroring the `Document` enum of `src/document.rs`. -/
inductive Document where
  | Passport (p : Passport)
  | IdentityCard (c : IdentityCard)
deriving DecidableEq, Repr

/-- Rust slice `&data[a..b]` on an ASCII string. -/
def sliceStr (s : List Char) (a b : Nat) : List Char :=
  (s.drop a).take (b - a)

/-- Rust `str::replace('<', "")`. -/
def stripFiller (s : List Char) : List Char :=
  s.filter (fun c => c != '<')

/-- Membership in the MRZ alphabet: the regex character class `[A-Z0-9<]`
of `VALID_PASSPORT_MRZ` / `VALID_IDENTITY_CARD_MRZ`. -/
def isMrzChar (c : Char) : Bool :=
  decide (65 ≤ c.toNat ∧ c.toNat ≤ 90) || decide (48 ≤ c.toNat ∧ c.toNat ≤ 57) || c == '<'

/-- Rust `char::is_ascii_digit`. -/
def isDigitChar (c : Char) : Bool :=
  decide (48 ≤ c.toNat ∧ c.toNat ≤ 57)

/-- Rust `char::to_digit(10)` on an ASCII digit. -/
def digitVal (c : Char) : Nat :=
  c.toNat - 48

/-- The character table of `char_weighting` inside `verify_check_digit`
(`src/parser.rs` lines 45–88), transliterated case by case. -/
def char_value (c : Char) : Option Nat :=
  match c with
  | '0' => Option.some 0
  | '1' => Option.some 1
  | '2' => Option.some 2
  | '3' => Option.some 3
  | '4' => Option.some 4
  | '5' => Option.some 5
  | '6' => Option.some 6
  | '7' => Option.some 7
  | '8' => Option.some 8
  | '9' => Option.some 9
  | 'A' => Option.some 10
  | 'B' => Option.some 11
  | 'C' => Option.some 12
  | 'D' => Option.some 13
  | 'E' => Option.some 14
  | 'F' => Option.some 15
  | 'G' => Option.some 16
  | 'H' => Option.some 17
  | 'I' => Option.some 18
  | 'J' => Option.some 19
  | 'K' => Option.some 20
  | 'L' => Option.some 21
  | 'M' => Option.some 22
  | 'N' => Option.some 23
  | 'O' => Option.some 24
  | 'P' => Option.some 25
  | 'Q' => Option.some 26
  | 'R' => Option.some 27
  | 'S' => Option.some 28
  | 'T' => Option.some 29
  | 'U' => Option.some 30
  | 'V' => Option.some 31
  | 'W' => Option.some 32
  | 'X' => Option.some 33
  | 'Y' => Option.some 34
  | 'Z' => Option.some 35
  | '<' => Option.some 0
  | _ => Option.none

/-- The cycling `[7, 3, 1]` weighting iterator of `verify_check_digit`,
indexed by character position. -/
def weight (i : Nat) : Nat :=
  if i % 3 = 0 then 7 else if i % 3 = 1 then 3 else 1

/-- The `map(char_weighting).collect::<Result<Vec<_>, _>>()` / `sum` part of
`verify_check_digit`: weighted sum of the span, first invalid character
yielding `InvalidChar`. -/
def weightedSumAux : List Char → Nat → Except Error Nat
  | [], _ => .ok 0
  | c :: cs, i =>
    match char_value c with
    | none => .error .InvalidChar
    | some v =>
      match weightedSumAux cs (i + 1) with
      | .error e => .error e
      | .ok rest => .ok (v * weight i + rest)

/-- `verify_check_digit` (`src/parser.rs` lines 40–104). -/
def verify_check_digit (s : List Char) (check_digit : Nat) : Except Error Unit :=
  match weightedSumAux s 0 with
  | .error e => .error e
  | .ok sum => if check_digit = sum % 10 then .ok () else .error .BadCheckDigit

/-- `char_to_num` (`src/parser.rs` lines 29–37). -/
def char_to_num (data : List Char) (ind : Nat) : Except Error Nat :=
  match data.get? ind with
  | none => .error .InvalidFormat
  | some c => if isDigitChar c then .ok (digitVal c) else .error .ExpectedDigit

/-- The pattern `verify_check_digit(&data[a..b], char_to_num(data, pos)?)?`
used for every per-field check: Rust evaluates the `char_to_num` argument
first, so `ExpectedDigit` takes precedence. -/
def fieldCheck (data : List Char) (a b pos : Nat) : Except Error Unit :=
  match char_to_num data pos with
  | .error e => .error e
  | .ok d => verify_check_digit (sliceStr data a b) d

/-- Gregorian leap year. -/
def leapYear (y : Nat) : Bool :=
  decide ((y % 4 = 0 ∧ y % 100 ≠ 0) ∨ y % 400 = 0)

/-- Days in a month of the Gregorian calendar. -/
def daysInMonth (y m : Nat) : Nat :=
  if m = 2 then (if leapYear y then 29 else 28)
  else if m = 4 ∨ m = 6 ∨ m = 9 ∨ m = 11 then 30
  else 31

/-- Validity of a Gregorian calendar date. -/
def validDate (y m d : Nat) : Bool :=
  decide (1 ≤ m ∧ m ≤ 12 ∧ 1 ≤ d ∧ d ≤ daysInMonth y m)

/-- Model of chrono `NaiveDate::parse_from_str(s, "%y%m%d")` on a 6-character
slice: succeeds iff all six characters are ASCII digits and the decoded
date is valid, with the two-digit year resolved to chrono's documented
`%y` range 1969–2068. -/
def dateFromField (cs : List Char) : Option MrzDate :=
  if cs.length = 6 && cs.all isDigitChar then
    let yy := digitVal (cs.getD 0 '0') * 10 + digitVal (cs.getD 1 '0')
    let mm := digitVal (cs.getD 2 '0') * 10 + digitVal (cs.getD 3 '0')
    let dd := digitVal (cs.getD 4 '0') * 10 + digitVal (cs.getD 5 '0')
    let year := if yy ≤ 68 then 2000 + yy else 1900 + yy
    if validDate year mm dd then some ⟨year, mm, dd⟩ else none
  else none

/-- The century rollover applied to the birth date in both parsers
(`if birth_year > current_year { birth_date.with_year(birth_year - 100).unwrap() }`);
`none` models the panic of the `unwrap` when `with_year` fails. -/
def adjustBirth (current_year : Nat) (d : MrzDate) : Option MrzDate :=
  if current_year < d.year then
    if validDate (d.year - 100) d.month d.day then
      some ⟨d.year - 100, d.month, d.day⟩
    else none
  else some d

/-- The gender match of both parsers. -/
def genderOf (c : Char) : Gender :=
  if c = 'M' then .Male else if c = 'F' then .Female else .Other

/-- Rust `str::split("<<")`: non-overlapping left-to-right splitting on the
two-character separator. -/
def splitSS : List Char → List (List Char)
  | [] => [[]]
  | '<' :: '<' :: rest => [] :: splitSS rest
  | c :: rest =>
    match splitSS rest with
    | [] => [[c]]
    | s :: ss => (c :: s) :: ss

/-- Whether the list contains the two-character sequence `<<`. -/
def containsSS : List Char → Bool
  | '<' :: '<' :: _ => true
  | _ :: rest => containsSS rest
  | [] => false

/-- `split('<').filter(|name| !name.is_empty())` applied to one side of the
name field. -/
def nameTokens (s : List Char) : List (List Char) :=
  (s.splitOn '<').filter (fun t => !t.isEmpty)

/-- The TD-3 composite check
(`format!("{}{}{}", &data[44..54], &data[57..64], &data[65..87])` verified
against the digit at position 87). -/
def composite_check_td3 (data : List Char) : Except Error Unit :=
  match char_to_num data 87 with
  | .error e => .error e
  | .ok d =>
    verify_check_digit (sliceStr data 44 54 ++ sliceStr data 57 64 ++ sliceStr data 65 87) d

/-- The TD-1 composite check
(`format!("{}{}{}{}", &data[5..30], &data[30..37], &data[38..45], &data[48..59])`
verified against the digit at position 59). -/
def composite_check_td1 (data : List Char) : Except Error Unit :=
  match char_to_num data 59 with
  | .error e => .error e
  | .ok d =>
    verify_check_digit
      (sliceStr data 5 30 ++ sliceStr data 30 37 ++ sliceStr data 38 45 ++ sliceStr data 48 59) d

/-- `parse_passport` (`src/parser.rs` lines 106–185).  The input is only
ever supplied by `parse` after the 88-character shape check, so the
`getD` defaults are never observable. -/
def parse_passport (data : List Char) (check : Bool) (current_year : Nat) :
    Option (Except Error Document) :=
  if data.getD 0 '?' ≠ 'P' then some (.error .InvalidDocumentType)
  else
    match splitSS (sliceStr data 5 43) with
    | [] => some (.error .InvalidFormat)
    | [_] => some (.error .InvalidFormat)
    | sur :: giv :: _ =>
      match (if check then fieldCheck data 44 53 53 else .ok ()) with
      | .error e => some (.error e)
      | .ok _ =>
        match dateFromField (sliceStr data 57 63) with
        | none => some (.error .InvalidBirthDate)
        | some bd0 =>
          match adjustBirth current_year bd0 with
          | none => none
          | some birth_date =>
            match (if check then fieldCheck data 57 63 63 else .ok ()) with
            | .error e => some (.error e)
            | .ok _ =>
              match dateFromField (sliceStr data 65 71) with
              | none => some (.error .InvalidExpiryDate)
              | some expiry_date =>
                match (if check then
                        (fieldCheck data 65 71 71).bind (fun _ =>
                          (fieldCheck data 72 86 86).bind (fun _ =>
                            composite_check_td3 data))
                      else .ok ()) with
                | .error e => some (.error e)
                | .ok _ =>
                  some (.ok (.Passport {
                    country := stripFiller (sliceStr data 2 5),
                    surnames := nameTokens sur,
                    given_names := nameTokens giv,
                    passport_number := stripFiller (sliceStr data 44 53),
                    nationality := stripFiller (sliceStr data 54 57),
                    birth_date := birth_date,
                    gender := genderOf (data.getD 64 '?'),
                    expiry_date := expiry_date }))

/-- `parse_identity_card` (`src/parser.rs` lines 187–272). -/
def parse_identity_card (data : List Char) (check : Bool) (current_year : Nat) :
    Option (Except Error Document) :=
  if data.getD 0 '?' ≠ 'I' ∧ data.getD 0 '?' ≠ 'A' ∧ data.getD 0 '?' ≠ 'C' then
    some (.error .InvalidDocumentType)
  else
    match splitSS (data.drop 60) with
    | [] => some (.error .InvalidFormat)
    | [_] => some (.error .InvalidFormat)
    | sur :: giv :: _ =>
      match (if check then fieldCheck data 5 14 14 else .ok ()) with
      | .error e => some (.error e)
      | .ok _ =>
        match dateFromField (sliceStr data 30 36) with
        | none => some (.error .InvalidBirthDate)
        | some bd0 =>
          match adjustBirth current_year bd0 with
          | none => none
          | some birth_date =>
            match (if check then fieldCheck data 30 36 36 else .ok ()) with
            | .error e => some (.error e)
            | .ok _ =>
              match dateFromField (sliceStr data 38 44) with
              | none => some (.error .InvalidExpiryDate)
              | some expiry_date =>
                match (if check then
                        (fieldCheck data 38 44 44).bind (fun _ =>
                          composite_check_td1 data)
                      else .ok ()) with
                | .error e => some (.error e)
                | .ok _ =>
                  some (.ok (.IdentityCard {
                    country := stripFiller (sliceStr data 2 5),
                    surnames := nameTokens sur,
                    given_names := nameTokens giv,
                    document_number := stripFiller (sliceStr data 5 14),
                    nationality := stripFiller (sliceStr data 2 5),
                    birth_date := birth_date,
                    gender := genderOf (data.getD 37 '?'),
                    expiry_date := expiry_date }))

/-- `parse` (`src/parser.rs` lines 19–27): the two anchored regexes
`^[A-Z0-9<]{88}$` and `^[A-Z0-9<]{90}$` amount to a length check plus the
alphabet check. -/
def parse (data : List Char) (check : Bool) (current_year : Nat) :
    Option (Except Error Document) :=
  if data.length = 88 ∧ data.all isMrzChar then
    parse_passport data check current_year
  else if data.length = 90 ∧ data.all isMrzChar then
    parse_identity_card data check current_year
  else some (.error .InvalidFormat)

/-- Surname list of either document variant. -/
def surnamesOf : Document → List (List Char)
  | .Passport p => p.surnames
  | .IdentityCard c => c.surnames

/-- Given-name list of either document variant. -/
def givenNamesOf : Document → List (List Char)
  | .Passport p => p.given_names
  | .IdentityCard c => c.given_names

/-- Birth date of either document variant. -/
def birthDateOf : Document → MrzDate
  | .Passport p => p.birth_date
  | .IdentityCard c => c.birth_date

/-- Two-digit year read off the first two characters of a birth-date field. -/
def yyOf (cs : List Char) : Nat :=
  digitVal (cs.getD 0 '0') * 10 + digitVal (cs.getD 1 '0')

/-- The birth-date field of an input, by format: bytes 57..63 for TD-3
(88 characters), bytes 30..36 for TD-1. -/
def birthSliceOf (s : List Char) : List Char :=
  if s.length = 88 then sliceStr s 57 63 else sliceStr s 30 36

/-! ### Helper lemmas -/

/-- The specification formula for the check digit: sum over positions of
character value times the cycling weight `[7, 3, 1]`, starting at position
index `i`. -/
def wSum : List Char → Nat → Nat
  | [], _ => 0
  | c :: cs, i => (char_value c).getD 0 * weight i + wSum cs (i + 1)

theorem weightedSumAux_eq (s : List Char) (i : Nat) :
    weightedSumAux s i =
      if s.all (fun c => (char_value c).isSome) then .ok (wSum s i)
      else .error .InvalidChar := by
  induction s generalizing i with
  | nil => simp [weightedSumAux, wSum]
  | cons c cs ih =>
    cases hcv : char_value c with
    | none => simp [weightedSumAux, hcv, List.all_cons]
    | some v =>
      by_cases hall : cs.all (fun c => (char_value c).isSome)
      · simp [weightedSumAux, hcv, ih, hall, wSum, List.all_cons]
      · simp [weightedSumAux, hcv, ih, hall, List.all_cons]

theorem splitSS_ne_nil (l : List Char) : splitSS l ≠ [] := by
  induction l using splitSS.induct with
  | case1 => simp [splitSS]
  | case2 rest ih => simp [splitSS]
  | case3 c rest h2 hnil ih => exact absurd hnil ih
  | case4 c rest h2 s ss hsplit ih =>
    rw [splitSS]
    · rw [hsplit]; simp
    · exact h2

theorem containsSS_cons_false {c : Char} {rest : List Char}
    (h : containsSS (c :: rest) = false) : containsSS rest = false := by
  rw [containsSS.eq_def] at h
  split at h
  · exact absurd h (by simp)
  · next heq => exact (List.cons.inj heq).2 ▸ h
  · next heq => exact absurd heq (by simp)

theorem splitSS_no_sep (l : List Char) (h : containsSS l = false) : splitSS l = [l] := by
  induction l using splitSS.induct with
  | case1 => rfl
  | case2 rest ih => simp [containsSS] at h
  | case3 c rest h2 hnil => exact absurd hnil (splitSS_ne_nil rest)
  | case4 c rest h2 s ss hsplit ih =>
    rw [splitSS]
    · rw [hsplit]
      have := ih (containsSS_cons_false h)
      rw [hsplit] at this
      obtain ⟨h1, h2'⟩ := List.cons.inj this
      subst h1; subst h2'; rfl
    · exact h2

theorem nameTokens_mem_ne_nil {t : List Char} {s : List Char}
    (h : t ∈ nameTokens s) : t ≠ [] := by
  unfold nameTokens at h
  have hf := List.of_mem_filter h
  simpa using hf

theorem digitVal_le_nine {c : Char} (h : isDigitChar c = true) : digitVal c ≤ 9 := by
  unfold isDigitChar at h
  unfold digitVal
  have := of_decide_eq_true h
  omega

theorem all_digit_getD {cs : List Char} (h : cs.all isDigitChar = true)
    {k : Nat} (hk : k < cs.length) : isDigitChar (cs.getD k '0') = true := by
  rw [List.getD_eq_getElem cs '0' hk]
  exact List.all_eq_true.mp h _ (List.getElem_mem hk)

theorem dateFromField_some {cs : List Char} {bd : MrzDate}
    (h : dateFromField cs = some bd) :
    cs.length = 6 ∧ cs.all isDigitChar = true ∧
    bd.year = (if yyOf cs ≤ 68 then 2000 + yyOf cs else 1900 + yyOf cs) ∧
    bd.month = digitVal (cs.getD 2 '0') * 10 + digitVal (cs.getD 3 '0') ∧
    bd.day = digitVal (cs.getD 4 '0') * 10 + digitVal (cs.getD 5 '0') ∧
    validDate bd.year bd.month bd.day = true := by
  unfold dateFromField at h
  split at h
  · next hcond =>
    rw [Bool.and_eq_true] at hcond
    obtain ⟨hlen, hall⟩ := hcond
    replace hlen : cs.length = 6 := by simpa using hlen
    dsimp only at h
    split at h
    · next hyy =>
      split at h
      · next hvd =>
        obtain rfl := Option.some.inj h
        refine ⟨hlen, hall, ?_, rfl, rfl, hvd⟩
        simp only [yyOf]
        rw [if_pos hyy]
      · exact absurd h (by simp)
    · next hyy =>
      split at h
      · next hvd =>
        obtain rfl := Option.some.inj h
        refine ⟨hlen, hall, ?_, rfl, rfl, hvd⟩
        simp only [yyOf]
        rw [if_neg hyy]
      · exact absurd h (by simp)
  · exact absurd h (by simp)

theorem yyOf_le_99 {cs : List Char} (hlen : cs.length = 6)
    (hall : cs.all isDigitChar = true) : yyOf cs ≤ 99 := by
  unfold yyOf
  have h0 := digitVal_le_nine (all_digit_getD hall (k := 0) (by omega))
  have h1 := digitVal_le_nine (all_digit_getD hall (k := 1) (by omega))
  omega

theorem validDate_sub100 {n m d : Nat} (h1 : 2001 ≤ n) (h2 : n ≤ 2068)
    (hv : validDate n m d = true) : validDate (n - 100) m d = true := by
  have hl : leapYear (n - 100) = leapYear n := by
    unfold leapYear
    rw [decide_eq_decide]
    omega
  have hd : daysInMonth (n - 100) m = daysInMonth n m := by
    unfold daysInMonth
    rw [hl]
  unfold validDate at hv ⊢
  rw [hd]
  exact hv

theorem adjustBirth_none_inv {y : Nat} {bd : MrzDate}
    (h : adjustBirth y bd = none) :
    y < bd.year ∧ validDate (bd.year - 100) bd.month bd.day = false := by
  unfold adjustBirth at h
  split at h
  · next hlt =>
    split at h
    · exact absurd h (by simp)
    · next hv => exact ⟨hlt, by simpa using hv⟩
  · exact absurd h (by simp)

theorem adjustBirth_total {cs : List Char} {bd : MrzDate} {y : Nat}
    (hy : 2000 ≤ y) (h : dateFromField cs = some bd) :
    adjustBirth y bd ≠ none := by
  intro hn
  obtain ⟨hlt, hbad⟩ := adjustBirth_none_inv hn
  obtain ⟨hlen, hall, hyear, _, _, hvd⟩ := dateFromField_some h
  have hyy := yyOf_le_99 hlen hall
  by_cases hcase : yyOf cs ≤ 68
  · rw [if_pos hcase] at hyear
    have : validDate (bd.year - 100) bd.month bd.day = true :=
      validDate_sub100 (by omega) (by omega) hvd
    rw [this] at hbad
    exact absurd hbad (by simp)
  · rw [if_neg hcase] at hyear
    omega

theorem parse_passport_ok_inv {data : List Char} {check : Bool} {y : Nat} {d : Document}
    (h : parse_passport data check y = some (.ok d)) :
    ∃ sur giv rest bd0 birth ed,
      data.getD 0 '?' = 'P' ∧
      splitSS (sliceStr data 5 43) = sur :: giv :: rest ∧
      dateFromField (sliceStr data 57 63) = some bd0 ∧
      adjustBirth y bd0 = some birth ∧
      dateFromField (sliceStr data 65 71) = some ed ∧
      d = .Passport {
        country := stripFiller (sliceStr data 2 5),
        surnames := nameTokens sur,
        given_names := nameTokens giv,
        passport_number := stripFiller (sliceStr data 44 53),
        nationality := stripFiller (sliceStr data 54 57),
        birth_date := birth,
        gender := genderOf (data.getD 64 '?'),
        expiry_date := ed } := by
  unfold parse_passport at h
  split at h
  · exact absurd h (by simp)
  · next h0 =>
    split at h
    · exact absurd h (by simp)
    · exact absurd h (by simp)
    · next sur giv rest hsp =>
      split at h
      · exact absurd h (by simp)
      · split at h
        · exact absurd h (by simp)
        · next bd0 hbd =>
          split at h
          · exact absurd h (by simp)
          · next birth hadj =>
            split at h
            · exact absurd h (by simp)
            · split at h
              · exact absurd h (by simp)
              · next ed hexp =>
                split at h
                · exact absurd h (by simp)
                · simp only [Option.some.injEq, Except.ok.injEq] at h
                  exact ⟨sur, giv, rest, bd0, birth, ed, not_not.mp h0,
                    hsp, hbd, hadj, hexp, h.symm⟩

theorem parse_identity_card_ok_inv {data : List Char} {check : Bool} {y : Nat} {d : Document}
    (h : parse_identity_card data check y = some (.ok d)) :
    ∃ sur giv rest bd0 birth ed,
      ¬(data.getD 0 '?' ≠ 'I' ∧ data.getD 0 '?' ≠ 'A' ∧ data.getD 0 '?' ≠ 'C') ∧
      splitSS (data.drop 60) = sur :: giv :: rest ∧
      dateFromField (sliceStr data 30 36) = some bd0 ∧
      adjustBirth y bd0 = some birth ∧
      dateFromField (sliceStr data 38 44) = some ed ∧
      d = .IdentityCard {
        country := stripFiller (sliceStr data 2 5),
        surnames := nameTokens sur,
        given_names := nameTokens giv,
        document_number := stripFiller (sliceStr data 5 14),
        nationality := stripFiller (sliceStr data 2 5),
        birth_date := birth,
        gender := genderOf (data.getD 37 '?'),
        expiry_date := ed } := by
  unfold parse_identity_card at h
  split at h
  · exact absurd h (by simp)
  · next h0 =>
    split at h
    · exact absurd h (by simp)
    · exact absurd h (by simp)
    · next sur giv rest hsp =>
      split at h
      · exact absurd h (by simp)
      · split at h
        · exact absurd h (by simp)
        · next bd0 hbd =>
          split at h
          · exact absurd h (by simp)
          · next birth hadj =>
            split at h
            · exact absurd h (by simp)
            · split at h
              · exact absurd h (by simp)
              · next ed hexp =>
                split at h
                · exact absurd h (by simp)
                · simp only [Option.some.injEq, Except.ok.injEq] at h
                  exact ⟨sur, giv, rest, bd0, birth, ed, h0,
                    hsp, hbd, hadj, hexp, h.symm⟩

theorem parse_passport_none_inv {data : List Char} {check : Bool} {y : Nat}
    (h : parse_passport data check y = none) :
    ∃ bd0, dateFromField (sliceStr data 57 63) = some bd0 ∧ adjustBirth y bd0 = none := by
  unfold parse_passport at h
  split at h
  · exact absurd h (by simp)
  · split at h
    · exact absurd h (by simp)
    · exact absurd h (by simp)
    · split at h
      · exact absurd h (by simp)
      · split at h
        · exact absurd h (by simp)
        · next bd0 hbd =>
          split at h
          · next hadj => exact ⟨bd0, hbd, hadj⟩
          · split at h
            · exact absurd h (by simp)
            · split at h
              · exact absurd h (by simp)
              · split at h
                · exact absurd h (by simp)
                · exact absurd h (by simp)

theorem parse_identity_card_none_inv {data : List Char} {check : Bool} {y : Nat}
    (h : parse_identity_card data check y = none) :
    ∃ bd0, dateFromField (sliceStr data 30 36) = some bd0 ∧ adjustBirth y bd0 = none := by
  unfold parse_identity_card at h
  split at h
  · exact absurd h (by simp)
  · split at h
    · exact absurd h (by simp)
    · exact absurd h (by simp)
    · split at h
      · exact absurd h (by simp)
      · split at h
        · exact absurd h (by simp)
        · next bd0 hbd =>
          split at h
          · next hadj => exact ⟨bd0, hbd, hadj⟩
          · split at h
            · exact absurd h (by simp)
            · split at h
              · exact absurd h (by simp)
              · split at h
                · exact absurd h (by simp)
                · exact absurd h (by simp)

theorem parse_passport_false_err {data : List Char} {y : Nat} {e : Error}
    (h : parse_passport data false y = some (.error e)) :
    e = .InvalidDocumentType ∨ e = .InvalidFormat ∨
    e = .InvalidBirthDate ∨ e = .InvalidExpiryDate := by
  unfold parse_passport at h
  split at h
  · simp only [Option.some.injEq, Except.error.injEq] at h
    exact Or.inl h.symm
  · split at h
    · simp only [Option.some.injEq, Except.error.injEq] at h
      exact Or.inr (Or.inl h.symm)
    · simp only [Option.some.injEq, Except.error.injEq] at h
      exact Or.inr (Or.inl h.symm)
    · split at h
      · next e1 heq => simp at heq
      · split at h
        · simp only [Option.some.injEq, Except.error.injEq] at h
          exact Or.inr (Or.inr (Or.inl h.symm))
        · split at h
          · exact absurd h (by simp)
          · split at h
            · next e1 heq => simp at heq
            · split at h
              · simp only [Option.some.injEq, Except.error.injEq] at h
                exact Or.inr (Or.inr (Or.inr h.symm))
              · split at h
                · next e1 heq => simp at heq
                · exact absurd h (by simp)

theorem parse_identity_card_false_err {data : List Char} {y : Nat} {e : Error}
    (h : parse_identity_card data false y = some (.error e)) :
    e = .InvalidDocumentType ∨ e = .InvalidFormat ∨
    e = .InvalidBirthDate ∨ e = .InvalidExpiryDate := by
  unfold parse_identity_card at h
  split at h
  · simp only [Option.some.injEq, Except.error.injEq] at h
    exact Or.inl h.symm
  · split at h
    · simp only [Option.some.injEq, Except.error.injEq] at h
      exact Or.inr (Or.inl h.symm)
    · simp only [Option.some.injEq, Except.error.injEq] at h
      exact Or.inr (Or.inl h.symm)
    · split at h
      · next e1 heq => simp at heq
      · split at h
        · simp only [Option.some.injEq, Except.error.injEq] at h
          exact Or.inr (Or.inr (Or.inl h.symm))
        · split at h
          · exact absurd h (by simp)
          · split at h
            · next e1 heq => simp at heq
            · split at h
              · simp only [Option.some.injEq, Except.error.injEq] at h
                exact Or.inr (Or.inr (Or.inr h.symm))
              · split at h
                · next e1 heq => simp at heq
                · exact absurd h (by simp)

theorem parse_passport_refines {data : List Char} {y : Nat} {d : Document}
    (h : parse_passport data true y = some (.ok d)) :
    parse_passport data false y = some (.ok d) := by
  obtain ⟨sur, giv, rest, bd0, birth, ed, hP, hsp, hbd, hadj, hexp, hd⟩ :=
    parse_passport_ok_inv h
  unfold parse_passport
  rw [if_neg (not_not_intro hP)]
  simp only [hsp, hbd, hadj, hexp]
  simp [hd]

theorem parse_identity_card_refines {data : List Char} {y : Nat} {d : Document}
    (h : parse_identity_card data true y = some (.ok d)) :
    parse_identity_card data false y = some (.ok d) := by
  obtain ⟨sur, giv, rest, bd0, birth, ed, h0, hsp, hbd, hadj, hexp, hd⟩ :=
    parse_identity_card_ok_inv h
  unfold parse_identity_card
  rw [if_neg h0]
  simp only [hsp, hbd, hadj, hexp]
  simp [hd]

/-! ### Concrete inputs (from the repository test suite, plus variants) -/

/-- ICAO specimen passport MRZ (test `parse_passport`). -/
def mrzS1 : List Char :=
  "P<UTOERIKSSON<<ANNA<MARIA<<<<<<<<<<<<<<<<<<<L898902C36UTO7408122F1204159ZE184226B<<<<<10".toList

/-- Dutch specimen identity card MRZ (test `parse_identity_card_multiple_names`). -/
def mrzS7 : List Char :=
  "I<NLDSPECI20212<<<<<<<<<<<<<<<6503101F3108022NLD<<<<<<<<<<<8DE<BRUIJN<<WILLEKE<LISELOTTE<<".toList

/-- `mrzS1` with the name region replaced so that the primary identifier is
empty (the region starts with the separator). -/
def mrzC3 : List Char :=
  "P<UTO<<ANNA<<<<<<<<<<<<<<<<<<<<<<<<<<<<<<<<<L898902C36UTO7408122F1204159ZE184226B<<<<<10".toList

/-- `mrzC3`'s expected parse result: note the empty surname list. -/
def docC3 : Document :=
  .Passport {
    country := "UTO".toList,
    surnames := [],
    given_names := ["ANNA".toList],
    passport_number := "L898902C3".toList,
    nationality := "UTO".toList,
    birth_date := ⟨1974, 8, 12⟩,
    gender := .Female,
    expiry_date := ⟨2012, 4, 15⟩ }

/-- `mrzS1` with a name region containing no `<<` separator at all. -/
def mrzC4 : List Char :=
  "P<UTOABCDEFGHIJKLMNOPQRSTUVWXYZABCDEFGHIJKL<L898902C36UTO7408122F1204159ZE184226B<<<<<10".toList

/-- `mrzS1` with birth-date field `690812` (two-digit year 69). -/
def mrzC5 : List Char :=
  "P<UTOERIKSSON<<ANNA<MARIA<<<<<<<<<<<<<<<<<<<L898902C36UTO6908122F1204159ZE184226B<<<<<10".toList

/-- `mrzC5`'s parse result at current year 2069: chrono resolves `69` to
1969, which is not adjusted. -/
def docC5 : Document :=
  .Passport {
    country := "UTO".toList,
    surnames := ["ERIKSSON".toList],
    given_names := ["ANNA".toList, "MARIA".toList],
    passport_number := "L898902C3".toList,
    nationality := "UTO".toList,
    birth_date := ⟨1969, 8, 12⟩,
    gender := .Female,
    expiry_date := ⟨2012, 4, 15⟩ }

/-- `mrzS1`'s expected parse result. -/
def docS1 : Document :=
  .Passport {
    country := "UTO".toList,
    surnames := ["ERIKSSON".toList],
    given_names := ["ANNA".toList, "MARIA".toList],
    passport_number := "L898902C3".toList,
    nationality := "UTO".toList,
    birth_date := ⟨1974, 8, 12⟩,
    gender := .Female,
    expiry_date := ⟨2012, 4, 15⟩ }

/-- `mrzS7`'s expected parse result (at current year 2025). -/
def docS7 : Document :=
  .IdentityCard {
    country := "NLD".toList,
    surnames := ["DE".toList, "BRUIJN".toList],
    given_names := ["WILLEKE".toList, "LISELOTTE".toList],
    document_number := "SPECI2021".toList,
    nationality := "NLD".toList,
    birth_date := ⟨1965, 3, 10⟩,
    gender := .Female,
    expiry_date := ⟨2031, 8, 2⟩ }

/-! ### Claims -/

/-- C1: the check-digit verifier accepts a span `s` against digit `d` iff
every character of `s` is in the weighting table and `d` equals the weighted
sum `Σ value(s[i]) * w[i mod 3] mod 10` with `w = [7,3,1]`; a character
outside the table yields `InvalidChar`, a sum mismatch yields
`BadCheckDigit`; and `char_to_num` yields `ExpectedDigit` whenever the
character at the expected check-digit position is not an ASCII digit. -/
theorem C1_check_digit_verifier :
    (∀ s d, verify_check_digit s d =
      (if s.all (fun c => (char_value c).isSome) then
        (if d = wSum s 0 % 10 then .ok () else .error .BadCheckDigit)
       else .error .InvalidChar)) ∧
    (∀ data pos c, data.get? pos = some c → isDigitChar c = false →
      char_to_num data pos = .error .ExpectedDigit) := by
  constructor
  · intro s d
    unfold verify_check_digit
    rw [weightedSumAux_eq]
    by_cases hall : s.all (fun c => (char_value c).isSome) <;> simp [hall]
  · intro data pos c hg hd
    rw [List.get?_eq_getElem?] at hg
    simp [char_to_num, hg, hd]

/-- C1 witness: the birth-date span of the specimen passport has check
digit 2; a letter at a check-digit position yields `ExpectedDigit`. -/
theorem C1_witness :
    verify_check_digit ("740812".toList) 2 = .ok () ∧
    char_to_num ['A'] 0 = .error .ExpectedDigit := by
  constructor
  · rw [C1_check_digit_verifier.1]
    rfl
  · exact C1_check_digit_verifier.2 ['A'] 0 'A' rfl rfl

/-- C2: any input whose length is neither 88 nor 90, or that contains a
character outside the MRZ alphabet, is rejected with `InvalidFormat`, for
both values of the check flag. -/
theorem C2_invalid_format :
    ∀ s check y, ((s.length ≠ 88 ∧ s.length ≠ 90) ∨ (∃ c ∈ s, isMrzChar c = false)) →
    parse s check y = some (.error .InvalidFormat) := by
  intro s check y h
  unfold parse
  rcases h with ⟨h88, h90⟩ | ⟨c, hc, hbad⟩
  · rw [if_neg (by simp [h88]), if_neg (by simp [h90])]
  · have hall : s.all isMrzChar = false := by
      rw [List.all_eq_false]
      exact ⟨c, hc, by simp [hbad]⟩
    rw [if_neg (by simp [hall]), if_neg (by simp [hall])]

/-- C2 witness: a 3-character input is rejected. -/
theorem C2_witness : parse ("ABC".toList) true 2000 = some (.error .InvalidFormat) :=
  C2_invalid_format _ _ _ (Or.inl (by decide))

/-- C3 counterexample: a shape-valid passport whose name region starts with
`<<` parses successfully to a document whose surname list is EMPTY, so the
claim that the surnames list of every successful parse is non-empty fails. -/
theorem C3_counterexample :
    parse mrzC3 false 2025 = some (.ok docC3) ∧ surnamesOf docC3 = [] :=
  ⟨rfl, rfl⟩

/-- C3 (amended): on every successful parse, every token in the surnames
and given-names lists is a non-empty string; the lists themselves may be
empty (the code never checks the surname side for emptiness). -/
theorem C3_amended :
    ∀ s check y d, parse s check y = some (.ok d) →
      (∀ t ∈ surnamesOf d, t ≠ []) ∧ (∀ t ∈ givenNamesOf d, t ≠ []) := by
  intro s check y d h
  unfold parse at h
  split at h
  · obtain ⟨sur, giv, rest, bd0, birth, ed, _, _, _, _, _, hd⟩ := parse_passport_ok_inv h
    subst hd
    exact ⟨fun t ht => nameTokens_mem_ne_nil ht, fun t ht => nameTokens_mem_ne_nil ht⟩
  · split at h
    · obtain ⟨sur, giv, rest, bd0, birth, ed, _, _, _, _, _, hd⟩ :=
        parse_identity_card_ok_inv h
      subst hd
      exact ⟨fun t ht => nameTokens_mem_ne_nil ht, fun t ht => nameTokens_mem_ne_nil ht⟩
    · exact absurd h (by simp)

/-- C3 witness: the amended claim at the specimen passport. -/
theorem C3_witness :
    (∀ t ∈ surnamesOf docS1, t ≠ []) ∧ (∀ t ∈ givenNamesOf docS1, t ≠ []) :=
  C3_amended mrzS1 false 2025 docS1 rfl

/-- C4 counterexample: a shape-valid passport whose name region contains no
`<<` is rejected with `InvalidFormat` instead of parsing with an empty
given-names list. -/
theorem C4_counterexample :
    mrzC4.length = 88 ∧ mrzC4.all isMrzChar = true ∧
    containsSS (sliceStr mrzC4 5 43) = false ∧
    parse mrzC4 false 2025 = some (.error .InvalidFormat) :=
  ⟨rfl, rfl, rfl, rfl⟩

/-- C4 (amended): for every shape-valid input (either format) with a valid
document code whose name region contains no `<<`, parse FAILS with
`InvalidFormat` (the secondary-identifier pop has nothing to pop), for
either check flag. -/
theorem C4_amended :
    (∀ s check y, s.length = 88 → s.all isMrzChar = true → s.getD 0 '?' = 'P' →
      containsSS (sliceStr s 5 43) = false →
      parse s check y = some (.error .InvalidFormat)) ∧
    (∀ s check y, s.length = 90 → s.all isMrzChar = true →
      (s.getD 0 '?' = 'I' ∨ s.getD 0 '?' = 'A' ∨ s.getD 0 '?' = 'C') →
      containsSS (s.drop 60) = false →
      parse s check y = some (.error .InvalidFormat)) := by
  constructor
  · intro s check y hlen hall hP hss
    unfold parse
    rw [if_pos ⟨hlen, hall⟩]
    unfold parse_passport
    rw [if_neg (not_not_intro hP), splitSS_no_sep _ hss]
  · intro s check y hlen hall hIAC hss
    unfold parse
    rw [if_neg (by simp [hlen]), if_pos ⟨hlen, hall⟩]
    unfold parse_identity_card
    rw [if_neg (by
          intro hcon
          rcases hIAC with h | h | h
          exacts [hcon.1 h, hcon.2.1 h, hcon.2.2 h]),
        splitSS_no_sep _ hss]

/-- C4 witness: the amended claim at the concrete `<<`-free passport, with
checking enabled. -/
theorem C4_witness : parse mrzC4 true 2025 = some (.error .InvalidFormat) :=
  C4_amended.1 mrzC4 true 2025 rfl rfl rfl rfl

theorem year_formula {cs : List Char} {bd0 birth : MrzDate} {y : Nat}
    (h1 : 1999 ≤ y) (h2 : y ≤ 2068)
    (hbd : dateFromField cs = some bd0) (hadj : adjustBirth y bd0 = some birth) :
    birth.year = (if y < 2000 + yyOf cs then 1900 + yyOf cs else 2000 + yyOf cs) := by
  obtain ⟨hlen, hall, hyear, _, _, _⟩ := dateFromField_some hbd
  have hyy99 := yyOf_le_99 hlen hall
  unfold adjustBirth at hadj
  by_cases hpiv : yyOf cs ≤ 68
  · rw [if_pos hpiv] at hyear
    by_cases hlt : y < bd0.year
    · rw [if_pos hlt] at hadj
      split at hadj
      · obtain rfl := Option.some.inj hadj
        rw [if_pos (by omega)]
        simp
        omega
      · exact absurd hadj (by simp)
    · rw [if_neg hlt] at hadj
      obtain rfl := Option.some.inj hadj
      rw [if_neg (by omega)]
      omega
  · rw [if_neg hpiv] at hyear
    have hlt : ¬ y < bd0.year := by omega
    rw [if_neg hlt] at hadj
    obtain rfl := Option.some.inj hadj
    rw [if_pos (by omega)]
    omega

/-- C5 counterexample: at current year 2069 with two-digit birth year 69,
parse succeeds with birth year 1969 (chrono pivots 69 to 1969, and no
adjustment runs), while the claimed rule demands 2000+69 = 2069 since
2000+69 does not exceed 2069. -/
theorem C5_counterexample :
    parse mrzC5 false 2069 = some (.ok docC5) ∧
    yyOf (birthSliceOf mrzC5) = 69 ∧
    (if 2069 < 2000 + yyOf (birthSliceOf mrzC5) then 1900 + yyOf (birthSliceOf mrzC5)
     else 2000 + yyOf (birthSliceOf mrzC5)) ≠ (birthDateOf docC5).year :=
  ⟨rfl, rfl, by decide⟩

/-- C5 (amended): provided the current year `y` satisfies 1999 ≤ y ≤ 2068
(true at every parse time through 2068), every successful parse returns a
birth year equal to 1900+YY when 2000+YY exceeds `y`, and 2000+YY
otherwise, where YY is the two-digit year of the birth-date field. -/
theorem C5_century_rule :
    ∀ s check y d, 1999 ≤ y → y ≤ 2068 → parse s check y = some (.ok d) →
      (birthDateOf d).year =
        (if y < 2000 + yyOf (birthSliceOf s) then 1900 + yyOf (birthSliceOf s)
         else 2000 + yyOf (birthSliceOf s)) := by
  intro s check y d h1 h2 h
  unfold parse at h
  split at h
  · next hc =>
    obtain ⟨hlen, _⟩ := hc
    obtain ⟨sur, giv, rest, bd0, birth, ed, _, _, hbd, hadj, _, hd⟩ :=
      parse_passport_ok_inv h
    subst hd
    have hbs : birthSliceOf s = sliceStr s 57 63 := by
      unfold birthSliceOf
      rw [if_pos hlen]
    rw [hbs]
    exact year_formula h1 h2 hbd hadj
  · split at h
    · next hc =>
      obtain ⟨hlen, _⟩ := hc
      obtain ⟨sur, giv, rest, bd0, birth, ed, _, _, hbd, hadj, _, hd⟩ :=
        parse_identity_card_ok_inv h
      subst hd
      have hbs : birthSliceOf s = sliceStr s 30 36 := by
        unfold birthSliceOf
        rw [if_neg (by simp [hlen])]
      rw [hbs]
      exact year_formula h1 h2 hbd hadj
    · exact absurd h (by simp)

/-- C5 witness: the amended century rule at the specimen passport, current
year 2025, two-digit birth year 74. -/
theorem C5_witness :
    (birthDateOf docS1).year =
      (if 2025 < 2000 + yyOf (birthSliceOf mrzS1) then 1900 + yyOf (birthSliceOf mrzS1)
       else 2000 + yyOf (birthSliceOf mrzS1)) :=
  C5_century_rule mrzS1 false 2025 docS1 (by decide) (by decide) rfl

/-- C6: for a 90-character shape-valid input parsed with checking enabled
whose earlier stages all succeed (shape, document code, names, dates, and
the three per-field checks), the outcome is decided exactly by verifying
the concatenation of byte ranges 5..30, 30..37, 38..45 and 48..59 against
the digit at position 59. -/
theorem C6_composite_td1 :
    ∀ s y d, s.length = 90 → s.all isMrzChar = true →
      parse_identity_card s false y = some (.ok d) →
      fieldCheck s 5 14 14 = .ok () →
      fieldCheck s 30 36 36 = .ok () →
      fieldCheck s 38 44 44 = .ok () →
      parse s true y =
        (match char_to_num s 59 with
         | .error e => some (.error e)
         | .ok dd =>
           match verify_check_digit
               (sliceStr s 5 30 ++ sliceStr s 30 37 ++ sliceStr s 38 45 ++ sliceStr s 48 59) dd with
           | .error e => some (.error e)
           | .ok _ => some (.ok d)) := by
  intro s y d hlen hall hfalse hc1 hc2 hc3
  obtain ⟨sur, giv, rest, bd0, birth, ed, h0, hsp, hbd, hadj, hexp, hd⟩ :=
    parse_identity_card_ok_inv hfalse
  unfold parse
  rw [if_neg (by simp [hlen]), if_pos ⟨hlen, hall⟩]
  unfold parse_identity_card
  rw [if_neg h0]
  simp only [hsp, hbd, hadj, hexp, if_true, hc1, hc2, hc3]
  unfold composite_check_td1
  cases hct : char_to_num s 59 with
  | error e => simp [hct, Except.bind]
  | ok dd =>
    cases hv : verify_check_digit
        (sliceStr s 5 30 ++ (sliceStr s 30 37 ++ (sliceStr s 38 45 ++ sliceStr s 48 59))) dd with
    | error e => simp [hct, hv, Except.bind]
    | ok u => simp [hct, hv, Except.bind, hd]

/-- C6 witness: the TD-1 composite equation at the specimen identity card. -/
theorem C6_witness :
    parse mrzS7 true 2025 =
      (match char_to_num mrzS7 59 with
       | .error e => some (.error e)
       | .ok dd =>
         match verify_check_digit
             (sliceStr mrzS7 5 30 ++ sliceStr mrzS7 30 37 ++
              sliceStr mrzS7 38 45 ++ sliceStr mrzS7 48 59) dd with
         | .error e => some (.error e)
         | .ok _ => some (.ok docS7)) :=
  C6_composite_td1 mrzS7 2025 docS7 rfl rfl rfl rfl rfl rfl

/-- C7: for an 88-character shape-valid input parsed with checking enabled
whose earlier stages all succeed (shape, document code, names, dates, and
the four per-field checks), the outcome is decided exactly by verifying the
concatenation of byte ranges 44..54, 57..64 and 65..87 against the digit at
position 87. -/
theorem C7_composite_td3 :
    ∀ s y d, s.length = 88 → s.all isMrzChar = true →
      parse_passport s false y = some (.ok d) →
      fieldCheck s 44 53 53 = .ok () →
      fieldCheck s 57 63 63 = .ok () →
      fieldCheck s 65 71 71 = .ok () →
      fieldCheck s 72 86 86 = .ok () →
      parse s true y =
        (match char_to_num s 87 with
         | .error e => some (.error e)
         | .ok dd =>
           match verify_check_digit
               (sliceStr s 44 54 ++ sliceStr s 57 64 ++ sliceStr s 65 87) dd with
           | .error e => some (.error e)
           | .ok _ => some (.ok d)) := by
  intro s y d hlen hall hfalse hc1 hc2 hc3 hc4
  obtain ⟨sur, giv, rest, bd0, birth, ed, h0, hsp, hbd, hadj, hexp, hd⟩ :=
    parse_passport_ok_inv hfalse
  unfold parse
  rw [if_pos ⟨hlen, hall⟩]
  unfold parse_passport
  rw [if_neg (not_not_intro h0)]
  simp only [hsp, hbd, hadj, hexp, if_true, hc1, hc2, hc3, hc4]
  unfold composite_check_td3
  cases hct : char_to_num s 87 with
  | error e => simp [hct, Except.bind]
  | ok dd =>
    cases hv : verify_check_digit
        (sliceStr s 44 54 ++ (sliceStr s 57 64 ++ sliceStr s 65 87)) dd with
    | error e => simp [hct, hv, Except.bind]
    | ok u => simp [hct, hv, Except.bind, hd]

/-- C7 witness: the TD-3 composite equation at the specimen passport. -/
theorem C7_witness :
    parse mrzS1 true 2025 =
      (match char_to_num mrzS1 87 with
       | .error e => some (.error e)
       | .ok dd =>
         match verify_check_digit
             (sliceStr mrzS1 44 54 ++ sliceStr mrzS1 57 64 ++ sliceStr mrzS1 65 87) dd with
         | .error e => some (.error e)
         | .ok _ => some (.ok docS1)) :=
  C7_composite_td3 mrzS1 2025 docS1 rfl rfl rfl rfl rfl rfl rfl

/-- C8: with checking disabled, parse never returns `BadCheckDigit`,
`ExpectedDigit` or `InvalidChar`: the result is either a document or one of
`InvalidFormat`, `InvalidDocumentType`, `InvalidBirthDate`,
`InvalidExpiryDate`. -/
theorem C8_no_check_errors :
    ∀ s y r, parse s false y = some r →
      (∃ d, r = .ok d) ∨ r = .error .InvalidFormat ∨ r = .error .InvalidDocumentType ∨
      r = .error .InvalidBirthDate ∨ r = .error .InvalidExpiryDate := by
  intro s y r h
  unfold parse at h
  split at h
  · cases r with
    | ok d => exact Or.inl ⟨d, rfl⟩
    | error e =>
      rcases parse_passport_false_err h with h1 | h1 | h1 | h1 <;> subst h1
      · exact Or.inr (Or.inr (Or.inl rfl))
      · exact Or.inr (Or.inl rfl)
      · exact Or.inr (Or.inr (Or.inr (Or.inl rfl)))
      · exact Or.inr (Or.inr (Or.inr (Or.inr rfl)))
  · split at h
    · cases r with
      | ok d => exact Or.inl ⟨d, rfl⟩
      | error e =>
        rcases parse_identity_card_false_err h with h1 | h1 | h1 | h1 <;> subst h1
        · exact Or.inr (Or.inr (Or.inl rfl))
        · exact Or.inr (Or.inl rfl)
        · exact Or.inr (Or.inr (Or.inr (Or.inl rfl)))
        · exact Or.inr (Or.inr (Or.inr (Or.inr rfl)))
    · simp only [Option.some.injEq] at h
      exact Or.inr (Or.inl h.symm)

/-- C8 witness: the claim instantiated at the specimen passport. -/
theorem C8_witness :
    (∃ d, (Except.ok docS1 : Except Error Document) = .ok d) ∨
    (Except.ok docS1 : Except Error Document) = .error .InvalidFormat ∨
    (Except.ok docS1 : Except Error Document) = .error .InvalidDocumentType ∨
    (Except.ok docS1 : Except Error Document) = .error .InvalidBirthDate ∨
    (Except.ok docS1 : Except Error Document) = .error .InvalidExpiryDate :=
  C8_no_check_errors mrzS1 2025 (.ok docS1) rfl

/-- C9: if parse with checking enabled succeeds, parse on the same input
and reference year with checking disabled returns the identical document:
enabling checks only adds failure cases. -/
theorem C9_check_refines :
    ∀ s y d, parse s true y = some (.ok d) → parse s false y = some (.ok d) := by
  intro s y d h
  unfold parse at h ⊢
  split at h
  · next hc =>
    rw [if_pos hc]
    exact parse_passport_refines h
  · split at h
    · next hc hc2 =>
      rw [if_neg hc, if_pos hc2]
      exact parse_identity_card_refines h
    · exact absurd h (by simp)

/-- C9 witness: the specimen passport parses identically with and without
checking. -/
theorem C9_witness : parse mrzS1 false 2025 = some (.ok docS1) :=
  C9_check_refines mrzS1 2025 docS1 rfl

theorem rollover_valid {cs : List Char} {bd : MrzDate} {y : Nat}
    (hy : 2000 ≤ y) (h : dateFromField cs = some bd) (hlt : y < bd.year) :
    validDate (bd.year - 100) bd.month bd.day = true := by
  obtain ⟨hlen, hall, hyear, _, _, hvd⟩ := dateFromField_some h
  have hyy := yyOf_le_99 hlen hall
  by_cases hcase : yyOf cs ≤ 68
  · rw [if_pos hcase] at hyear
    exact validDate_sub100 (by omega) (by omega) hvd
  · rw [if_neg hcase] at hyear
    omega

/-- C10: the century rollover never panics for current year at least 2000:
whenever a birth-date field decodes to a date later than the current year,
the date with 100 subtracted from the year is still a valid Gregorian date,
so `adjustBirth` cannot return `none` and `parse` never hits the
`with_year(..).unwrap()` panic. -/
theorem C10_rollover_safe :
    (∀ cs bd y, 2000 ≤ y → dateFromField cs = some bd → y < bd.year →
      validDate (bd.year - 100) bd.month bd.day = true) ∧
    (∀ cs bd y, 2000 ≤ y → dateFromField cs = some bd → adjustBirth y bd ≠ none) ∧
    (∀ s check y, 2000 ≤ y → parse s check y ≠ none) := by
  refine ⟨fun cs bd y hy h hlt => rollover_valid hy h hlt,
          fun cs bd y hy h => adjustBirth_total hy h, ?_⟩
  intro s check y hy hn
  unfold parse at hn
  split at hn
  · obtain ⟨bd0, hbd, hadj⟩ := parse_passport_none_inv hn
    exact adjustBirth_total hy hbd hadj
  · split at hn
    · obtain ⟨bd0, hbd, hadj⟩ := parse_identity_card_none_inv hn
      exact adjustBirth_total hy hbd hadj
    · exact absurd hn (by simp)

/-- C10 witness: a February 29 field (`280229`) rolls over to a valid 1928
date, and the specimen parse does not panic. -/
theorem C10_witness :
    validDate (2028 - 100) 2 29 = true ∧
    adjustBirth 2025 ⟨2028, 2, 29⟩ ≠ none ∧
    parse mrzS1 true 2025 ≠ none := by
  refine ⟨?_, ?_, ?_⟩
  · exact C10_rollover_safe.1 ("280229".toList) ⟨2028, 2, 29⟩ 2025 (by decide) rfl (by decide)
  · exact C10_rollover_safe.2.1 ("280229".toList) ⟨2028, 2, 29⟩ 2025 (by decide) rfl
  · exact C10_rollover_safe.2.2 mrzS1 true 2025 (by decide)
